import Mathlib

/-!
Shallow embedding of the signal-state coordination core of the LocalLens
traffic platform (src/traffic-platform/src/signals/signal_controller.py).

Phases are modelled as the strings the source stores ('red', 'yellow',
'green'); times and durations are integers (seconds); the per-signal record
mirrors the `SignalState` dataclass.  The `normal_timing` field of the
dataclass holds, over the program's lifetime, either Python `None`, a
timing-profile dict (as produced by `asdict(SignalTiming(...))`), or the
pre-override snapshot dict `{'state', 'remaining_time', 'state_start_time'}`;
it is modelled by the inductive `NormalTiming` below.  Calls that the source
wraps in try/except are modelled by returning the result record that the
except branch would produce at the corresponding failure point.
-/

namespace TrafficSignals

/-- Mirrors the `SignalTiming` dataclass with its field defaults. -/
structure SignalTiming where
  red_duration : Int := 45
  yellow_duration : Int := 5
  green_duration : Int := 30
  cycle_time : Int := 80
deriving DecidableEq

/-- The dict stored into `normal_timing` by `emergency_override` before an
override: the pre-override phase, remaining time and phase start time. -/
structure PhaseSnapshot where
  state : String
  remaining_time : Int
  state_start_time : Int
deriving DecidableEq

/-- The possible runtime contents of the `normal_timing : Dict` field:
Python `None`, a timing-profile dict, or a pre-override snapshot dict. -/
inductive NormalTiming where
  | none
  | timing (t : SignalTiming)
  | snapshot (snap : PhaseSnapshot)
deriving DecidableEq

/-- Mirrors the `SignalState` dataclass, including its field defaults. -/
structure SignalState where
  signal_id : String
  current_state : String
  state_start_time : Int
  remaining_time : Int
  is_emergency_override : Bool := false
  override_reason : String := ""
  normal_timing : NormalTiming := NormalTiming.none
deriving DecidableEq

/-- The environment-derived controller settings read in `__init__`
(EMERGENCY_OVERRIDE_DURATION, DEFAULT_GREEN_DURATION, DEFAULT_RED_DURATION),
with their in-code defaults. -/
structure Config where
  emergency_override_duration : Int := 60
  default_green_duration : Int := 30
  default_red_duration : Int := 45
deriving DecidableEq

/-- `self.default_timing = SignalTiming()`: the fixed default profile. -/
def default_timing : SignalTiming := {}

/-- The slice of each operation's result dict that the claims depend on:
the `success` flag and the presence/content of an `error` entry. -/
structure OpResult where
  success : Bool
  error : Option String := Option.none
deriving DecidableEq

/-- `SignalController._create_signal_if_not_exists`: if the signal is absent
it is created at red with the default red duration and the default timing
profile; an existing record is left untouched. -/
def _create_signal_if_not_exists (cfg : Config) (signal_id : String)
    (now : Int) (os : Option SignalState) : SignalState :=
  match os with
  | Option.some s => s
  | Option.none =>
      { signal_id := signal_id
        current_state := "red"
        state_start_time := now
        remaining_time := cfg.default_red_duration
        normal_timing := NormalTiming.timing default_timing }

/-- `SignalController.emergency_override`: lazily create the signal, snapshot
its current phase data into `normal_timing` when it was not already
overridden, then replace the record with a green override state.  `duration?`
models the optional `duration` argument (Python `None` selects the
configured emergency override duration); no validation is performed. -/
def emergency_override (cfg : Config) (os : Option SignalState)
    (signal_id : String) (now : Int) (duration? : Option Int)
    (reason : String) : SignalState × OpResult :=
  let duration := duration?.getD cfg.emergency_override_duration
  let current := _create_signal_if_not_exists cfg signal_id now os
  let nt :=
    if current.is_emergency_override then current.normal_timing
    else NormalTiming.snapshot
      { state := current.current_state
        remaining_time := current.remaining_time
        state_start_time := current.state_start_time }
  ({ signal_id := signal_id
     current_state := "green"
     state_start_time := now
     remaining_time := duration
     is_emergency_override := true
     override_reason := reason
     normal_timing := nt },
   { success := true })

/-- `SignalController.restore_normal_operation`: unknown signals and
non-overridden signals are rejected without mutation.  An overridden signal
with a non-None `normal_timing` is replaced by a yellow clearance state using
the default timing profile's yellow duration.  With `normal_timing = None`
the source's else-branch installs a red state and then raises `NameError`
(`override_duration` is only bound in the if-branch), which the enclosing
except turns into a failure result after the record was already replaced. -/
def restore_normal_operation (cfg : Config) (os : Option SignalState)
    (now : Int) : Option SignalState × OpResult :=
  match os with
  | Option.none =>
      (Option.none, { success := false, error := Option.some "Signal not found" })
  | Option.some current =>
    if current.is_emergency_override = false then
      (Option.some current,
       { success := false, error := Option.some "Signal is not in emergency override" })
    else
      match current.normal_timing with
      | NormalTiming.none =>
          (Option.some
            { signal_id := current.signal_id
              current_state := "red"
              state_start_time := now
              remaining_time := cfg.default_red_duration
              is_emergency_override := false },
           { success := false, error := Option.some "name override_duration is not defined" })
      | _ =>
          (Option.some
            { signal_id := current.signal_id
              current_state := "yellow"
              state_start_time := now
              remaining_time := default_timing.yellow_duration
              is_emergency_override := false
              normal_timing := NormalTiming.none },
           { success := true })

/-- A JSON-ish value of a timing-configuration field: an int, or anything
that fails the source's `isinstance(..., int)` check. -/
inductive ConfigValue where
  | intVal (n : Int)
  | otherVal
deriving DecidableEq

/-- The `timing_config : Dict` argument of `update_timing`, restricted to
the three required fields (`Option.none` models an absent key). -/
structure TimingConfig where
  red_duration : Option ConfigValue := Option.none
  yellow_duration : Option ConfigValue := Option.none
  green_duration : Option ConfigValue := Option.none
deriving DecidableEq

/-- One iteration of `update_timing`'s validation loop for one field:
missing key, non-int value, and non-positive value are rejected. -/
def validateField (fieldName : String) (v : Option ConfigValue) :
    Except String Int :=
  match v with
  | Option.none => Except.error ("Missing required field: " ++ fieldName)
  | Option.some ConfigValue.otherVal =>
      Except.error ("Invalid value for " ++ fieldName)
  | Option.some (ConfigValue.intVal n) =>
      if n > 0 then Except.ok n
      else Except.error ("Invalid value for " ++ fieldName)

/-- `SignalController.update_timing`: the signal is lazily created FIRST,
then the three required fields are validated in order; on success the
record's `normal_timing` is replaced by the new profile (with
`cycle_time` the sum of the three durations). -/
def update_timing (cfg : Config) (os : Option SignalState)
    (signal_id : String) (now : Int) (tc : TimingConfig) :
    Option SignalState × OpResult :=
  let current := _create_signal_if_not_exists cfg signal_id now os
  match validateField "red_duration" tc.red_duration with
  | Except.error e =>
      (Option.some current, { success := false, error := Option.some e })
  | Except.ok r =>
  match validateField "yellow_duration" tc.yellow_duration with
  | Except.error e =>
      (Option.some current, { success := false, error := Option.some e })
  | Except.ok y =>
  match validateField "green_duration" tc.green_duration with
  | Except.error e =>
      (Option.some current, { success := false, error := Option.some e })
  | Except.ok g =>
      let new_timing := SignalTiming.mk r y g (r + y + g)
      (Option.some { current with normal_timing := NormalTiming.timing new_timing },
       { success := true })

/-- `SignalController._transition_to_next_state`: advance one signal along
red→green→yellow→red using its `normal_timing` profile when present, else
the default profile.  When `normal_timing` holds a pre-override snapshot,
`SignalTiming(**normal_timing)` raises `TypeError` (unexpected keyword
`state`), the except swallows it and the record is left unchanged.
`_advance_phase` is the body after the timing profile has been selected:
the next-state if/elif/else chain and the record replacement. -/
def _advance_phase (s : SignalState) (now : Int) (timing : SignalTiming) :
    SignalState :=
  let next :=
    if s.current_state = "red" then ("green", timing.green_duration)
    else if s.current_state = "green" then ("yellow", timing.yellow_duration)
    else ("red", timing.red_duration)
  { signal_id := s.signal_id
    current_state := next.1
    state_start_time := now
    remaining_time := next.2
    is_emergency_override := false
    normal_timing := s.normal_timing }

/-- `SignalController._transition_to_next_state` proper: select the timing
profile (`SignalTiming(**normal_timing) if normal_timing else default`,
with the snapshot-dict `TypeError` case leaving the record unchanged) and
advance the phase. -/
def _transition_to_next_state (s : SignalState) (now : Int) : SignalState :=
  match s.normal_timing with
  | NormalTiming.snapshot _ => s
  | NormalTiming.timing t => _advance_phase s now t
  | NormalTiming.none => _advance_phase s now default_timing

/-- One `_monitor_signals` loop body for one signal at time `now`: when the
elapsed time since `state_start_time` has reached `remaining_time`, an
override is expired through `restore_normal_operation` and a normal signal
is advanced through `_transition_to_next_state`; otherwise nothing changes. -/
def tick (cfg : Config) (s : SignalState) (now : Int) : SignalState :=
  if now - s.state_start_time ≥ s.remaining_time then
    if s.is_emergency_override then
      ((restore_normal_operation cfg (Option.some s) now).1).getD s
    else
      _transition_to_next_state s now
  else s

/-- One entry of the coordination plan built by
`coordinate_green_corridor` (mirrors the dict appended to
`coordination_plan`; `green_start_time` is `start_time + delay`). -/
structure PlanEntry where
  signal_id : String
  green_start_time : Int
  green_duration : Int
  delay_from_start : Int
deriving DecidableEq

/-- `signal_interval = max(10, duration // len(route_signals))` (Python
floor division, here `Int.fdiv`). -/
def corridor_interval (duration : Int) (n : Nat) : Int :=
  max 10 (Int.fdiv duration (n : Int))

/-- The plan-building for-loop of `coordinate_green_corridor`, unrolled over
the enumerated signal list: entry `i` gets delay `i * interval` and green
duration `min(60, duration - delay)`, and is kept only when that duration
is positive. -/
def build_plan_from (duration interval start_time : Int) :
    Nat → List String → List PlanEntry
  | _, [] => []
  | i, sid :: rest =>
    let delay := (i : Int) * interval
    let gd := min 60 (duration - delay)
    if gd > 0 then
      { signal_id := sid
        green_start_time := start_time + delay
        green_duration := gd
        delay_from_start := delay }
        :: build_plan_from duration interval start_time (i + 1) rest
    else build_plan_from duration interval start_time (i + 1) rest

/-- The full coordination plan of `coordinate_green_corridor` for a signal
route, a total duration and a start time. -/
def build_coordination_plan (route_signals : List String) (duration : Int)
    (start_time : Int) : List PlanEntry :=
  build_plan_from duration (corridor_interval duration route_signals.length)
    start_time 0 route_signals

/-- The plan-execution loop of `coordinate_green_corridor`: each entry's
override call (immediate `emergency_override` for delay 0, otherwise
`_schedule_signal_override`, whose outcome depends on the external cache
collaborator) is abstracted by `callResult`; successful signal ids and
(signal id, error) pairs are collected in order. -/
def execute_plan (callResult : PlanEntry → OpResult) :
    List PlanEntry → List String × List (String × String)
  | [] => ([], [])
  | p :: rest =>
    let r := callResult p
    let tail := execute_plan callResult rest
    if r.success then (p.signal_id :: tail.1, tail.2)
    else (tail.1, (p.signal_id, r.error.getD "Unknown error") :: tail.2)

/-- `SignalController.coordinate_green_corridor`: empty routes are rejected;
otherwise the plan is built and executed, and the overall result's
`success` is `len(successful_coordinates) > 0`. -/
def coordinate_green_corridor (callResult : PlanEntry → OpResult)
    (route_signals : List String) (duration : Int) (start_time : Int) :
    OpResult × List String × List (String × String) :=
  if route_signals = [] then
    ({ success := false, error := Option.some "No signals provided" }, [], [])
  else
    let plan := build_coordination_plan route_signals duration start_time
    let outcome := execute_plan callResult plan
    ({ success := decide (0 < outcome.1.length) }, outcome.1, outcome.2)

/-- The request-driven and time-driven operations that can touch one
signal's record, each tagged with the wall-clock time at which it runs. -/
inductive Op where
  | create (now : Int)
  | override (now : Int) (duration? : Option Int) (reason : String)
  | restore (now : Int)
  | updateTiming (now : Int) (tc : TimingConfig)
  | monitorTick (now : Int)

/-- The effect of one operation on one signal's slot of `signal_states`
(`Option.none` = the signal does not exist; the monitor loop only visits
existing signals). -/
def step (cfg : Config) (sid : String) (os : Option SignalState) :
    Op → Option SignalState
  | Op.create now => Option.some (_create_signal_if_not_exists cfg sid now os)
  | Op.override now d? r => Option.some (emergency_override cfg os sid now d? r).1
  | Op.restore now => (restore_normal_operation cfg os now).1
  | Op.updateTiming now tc => (update_timing cfg os sid now tc).1
  | Op.monitorTick now => Option.map (fun s => tick cfg s now) os

/-- The states of one signal reachable by running a sequence of operations
starting from a non-existent signal. -/
def runOps (cfg : Config) (sid : String) (ops : List Op) :
    Option SignalState :=
  List.foldl (step cfg sid) Option.none ops

/-- The structural invariant maintained by every operation: the phase is one
of the three source strings, an overridden signal never carries a `None`
`normal_timing` (so `restore_normal_operation` on it takes the yellow
branch), and a non-overridden signal never carries a pre-override
snapshot (so `_transition_to_next_state` on it never hits the `TypeError`
branch). -/
def GoodState (s : SignalState) : Prop :=
  (s.current_state = "red" ∨ s.current_state = "yellow" ∨
    s.current_state = "green")
  ∧ (s.is_emergency_override = true → s.normal_timing ≠ NormalTiming.none)
  ∧ (s.is_emergency_override = false →
      ∀ snap, s.normal_timing ≠ NormalTiming.snapshot snap)

/-- `GoodState` lifted to a possibly-absent signal. -/
def GoodOpt : Option SignalState → Prop
  | Option.none => True
  | Option.some s => GoodState s

/-- The phase advancement map of `_transition_to_next_state`'s
if/elif/else chain, as a function on phase strings. -/
def nextPhase (p : String) : String :=
  if p = "red" then "green" else if p = "green" then "yellow" else "red"

/-- The controller configuration with all environment defaults. -/
def cfgD : Config := {}

/-- A freshly created signal (red, default red duration, default profile). -/
def sRed : SignalState := _create_signal_if_not_exists cfgD "s1" 0 Option.none

/-- The signal state produced by creating "x" at time 0 and overriding it
for 60 s with reason "amb" (the result of those two operations). -/
def stOverridden : SignalState :=
  { signal_id := "x"
    current_state := "green"
    state_start_time := 0
    remaining_time := 60
    is_emergency_override := true
    override_reason := "amb"
    normal_timing := NormalTiming.snapshot (PhaseSnapshot.mk "red" 45 0) }

/-- A timing configuration with a custom yellow duration of 10 s. -/
def tcCustom : TimingConfig :=
  { red_duration := Option.some (ConfigValue.intVal 30)
    yellow_duration := Option.some (ConfigValue.intVal 10)
    green_duration := Option.some (ConfigValue.intVal 30) }

/-- The overridden signal after `update_timing` installed the custom
profile during the override. -/
def stOvCustom : Option SignalState :=
  (update_timing cfgD (Option.some stOverridden) "x" 1 tcCustom).1

/-- The empty timing configuration (all three required fields missing). -/
def tcEmpty : TimingConfig := {}

/-- A plain (non-overridden) yellow signal with no stored profile. -/
def sYellowPlain : SignalState :=
  { signal_id := "y"
    current_state := "yellow"
    state_start_time := 0
    remaining_time := 5 }

/-- An override-call oracle that succeeds on signal "a" and fails with
"boom" on every other signal. -/
def crPartial : PlanEntry → OpResult :=
  fun p => if p.signal_id = "a" then { success := true }
           else { success := false, error := Option.some "boom" }

/-- A plain green signal whose window expires at time 30. -/
def sGreenDue : SignalState :=
  { signal_id := "g"
    current_state := "green"
    state_start_time := 0
    remaining_time := 30 }

lemma goodState_create (cfg : Config) (sid : String) (now : Int)
    (os : Option SignalState) (h : GoodOpt os) :
    GoodState (_create_signal_if_not_exists cfg sid now os) := by
  cases os with
  | none => simp [GoodState, _create_signal_if_not_exists]
  | some s => exact h

lemma goodState_override (cfg : Config) (os : Option SignalState)
    (sid : String) (now : Int) (d? : Option Int) (r : String)
    (h : GoodOpt os) :
    GoodState (emergency_override cfg os sid now d? r).1 := by
  have hc := goodState_create cfg sid now os h
  refine ⟨Or.inr (Or.inr rfl), ?_, ?_⟩
  · intro _
    show (if (_create_signal_if_not_exists cfg sid now os).is_emergency_override
          then (_create_signal_if_not_exists cfg sid now os).normal_timing
          else NormalTiming.snapshot _) ≠ NormalTiming.none
    by_cases hov : (_create_signal_if_not_exists cfg sid now os).is_emergency_override
    · rw [if_pos hov]; exact hc.2.1 hov
    · rw [if_neg hov]; simp
  · intro hfalse
    simp [emergency_override] at hfalse

lemma goodState_restore (cfg : Config) (os : Option SignalState) (now : Int)
    (h : GoodOpt os) :
    GoodOpt (restore_normal_operation cfg os now).1 := by
  cases os with
  | none => trivial
  | some current =>
      by_cases hov : current.is_emergency_override = false
      · simpa [restore_normal_operation, hov] using h
      · rw [Bool.not_eq_false] at hov
        cases hnt : current.normal_timing with
        | none => simp [restore_normal_operation, hov, hnt, GoodOpt, GoodState]
        | timing t => simp [restore_normal_operation, hov, hnt, GoodOpt, GoodState]
        | snapshot snap => simp [restore_normal_operation, hov, hnt, GoodOpt, GoodState]

lemma goodState_update (cfg : Config) (os : Option SignalState)
    (sid : String) (now : Int) (tc : TimingConfig) (h : GoodOpt os) :
    GoodOpt (update_timing cfg os sid now tc).1 := by
  have hc := goodState_create cfg sid now os h
  rcases hr : validateField "red_duration" tc.red_duration with e | r
  · simpa [update_timing, hr, GoodOpt] using hc
  rcases hy : validateField "yellow_duration" tc.yellow_duration with e | y
  · simpa [update_timing, hr, hy, GoodOpt] using hc
  rcases hg : validateField "green_duration" tc.green_duration with e | g
  · simpa [update_timing, hr, hy, hg, GoodOpt] using hc
  · simp only [update_timing, hr, hy, hg, GoodOpt]
    exact ⟨hc.1, fun _ => by simp, fun _ snap => by simp⟩

lemma goodState_advance (s : SignalState) (now : Int) (t : SignalTiming)
    (hs : ∀ snap, s.normal_timing ≠ NormalTiming.snapshot snap) :
    GoodState (_advance_phase s now t) := by
  refine ⟨?_, ?_, ?_⟩
  · simp only [_advance_phase]
    split_ifs <;> simp
  · intro hfalse; simp [_advance_phase] at hfalse
  · intro _ snap
    simpa [_advance_phase] using hs snap

lemma goodState_transition (s : SignalState) (now : Int) (h : GoodState s)
    (hov : s.is_emergency_override = false) :
    GoodState (_transition_to_next_state s now) := by
  cases hnt : s.normal_timing with
  | none =>
      rw [_transition_to_next_state, hnt]
      exact goodState_advance s now default_timing (by rw [hnt]; simp)
  | timing t =>
      rw [_transition_to_next_state, hnt]
      exact goodState_advance s now t (by rw [hnt]; simp)
  | snapshot snap => exact absurd hnt (h.2.2 hov snap)

lemma goodState_tick (cfg : Config) (s : SignalState) (now : Int)
    (h : GoodState s) : GoodState (tick cfg s now) := by
  rw [tick]
  by_cases hc : now - s.state_start_time ≥ s.remaining_time
  · rw [if_pos hc]
    by_cases hov : s.is_emergency_override = true
    · rw [if_pos hov]
      have hres := goodState_restore cfg (Option.some s) now h
      rcases hr : (restore_normal_operation cfg (Option.some s) now).1 with _ | x
      · simpa [hr] using h
      · rw [hr] at hres; simpa [hr] using hres
    · rw [if_neg hov]
      exact goodState_transition s now h (by simpa using hov)
  · rw [if_neg hc]; exact h

lemma goodState_step (cfg : Config) (sid : String) (os : Option SignalState)
    (op : Op) (h : GoodOpt os) : GoodOpt (step cfg sid os op) := by
  cases op with
  | create now => exact goodState_create cfg sid now os h
  | override now d? r => exact goodState_override cfg os sid now d? r h
  | restore now => exact goodState_restore cfg os now h
  | updateTiming now tc => exact goodState_update cfg os sid now tc h
  | monitorTick now =>
      cases os with
      | none => trivial
      | some s => exact goodState_tick cfg s now h

lemma goodState_runOps (cfg : Config) (sid : String) (ops : List Op) :
    GoodOpt (runOps cfg sid ops) := by
  rw [runOps]
  have key : ∀ (l : List Op) (os : Option SignalState), GoodOpt os →
      GoodOpt (List.foldl (step cfg sid) os l) := by
    intro l
    induction l with
    | nil => intro os h; exact h
    | cons op rest ih =>
        intro os h
        exact ih (step cfg sid os op) (goodState_step cfg sid os op h)
  exact key ops Option.none trivial

lemma build_plan_from_mem (d itv st : Int) :
    ∀ (sids : List String) (i : Nat) (e : PlanEntry),
      e ∈ build_plan_from d itv st i sids →
      0 < e.green_duration
      ∧ e.green_duration = min 60 (d - e.delay_from_start)
      ∧ e.green_start_time = st + e.delay_from_start
      ∧ ∃ j : Nat, sids.get? j = Option.some e.signal_id
          ∧ e.delay_from_start = ((i + j : Nat) : Int) * itv := by
  intro sids
  induction sids with
  | nil => intro i e he; simp [build_plan_from] at he
  | cons sid rest ih =>
      intro i e he
      simp only [build_plan_from] at he
      by_cases hgd : (0 : Int) < min 60 (d - (i : Int) * itv)
      · rw [if_pos hgd] at he
        rcases List.mem_cons.mp he with rfl | hmem
        · refine ⟨hgd, rfl, rfl, 0, rfl, ?_⟩
          simp
        · obtain ⟨h1, h2, h3, j, hj1, hj2⟩ := ih (i + 1) e hmem
          refine ⟨h1, h2, h3, j + 1, ?_, ?_⟩
          · simpa using hj1
          · rw [hj2]
            congr 1
            push_cast
            ring
      · rw [if_neg hgd] at he
        obtain ⟨h1, h2, h3, j, hj1, hj2⟩ := ih (i + 1) e he
        refine ⟨h1, h2, h3, j + 1, ?_, ?_⟩
        · simpa using hj1
        · rw [hj2]
          congr 1
          push_cast
          ring

lemma build_plan_from_delay_ge (d itv st : Int) (hitv : 0 ≤ itv)
    (sids : List String) (i : Nat) (e : PlanEntry)
    (he : e ∈ build_plan_from d itv st i sids) :
    (i : Int) * itv ≤ e.delay_from_start := by
  obtain ⟨_, _, _, j, _, hj⟩ := build_plan_from_mem d itv st sids i e he
  rw [hj]
  apply mul_le_mul_of_nonneg_right _ hitv
  push_cast
  omega

lemma build_plan_from_pairwise (d itv st : Int) (hitv : 0 ≤ itv) :
    ∀ (sids : List String) (i : Nat),
      (build_plan_from d itv st i sids).Pairwise
        (fun a b => a.delay_from_start ≤ b.delay_from_start) := by
  intro sids
  induction sids with
  | nil => intro i; simp [build_plan_from]
  | cons sid rest ih =>
      intro i
      simp only [build_plan_from]
      by_cases hgd : (0 : Int) < min 60 (d - (i : Int) * itv)
      · rw [if_pos hgd]
        refine List.Pairwise.cons ?_ (ih (i + 1))
        intro b hb
        have h1 := build_plan_from_delay_ge d itv st hitv rest (i + 1) b hb
        have h2 : (i : Int) * itv ≤ ((i + 1 : Nat) : Int) * itv := by
          apply mul_le_mul_of_nonneg_right _ hitv
          push_cast
          omega
        show (i : Int) * itv ≤ b.delay_from_start
        exact le_trans h2 h1
      · rw [if_neg hgd]
        exact ih (i + 1)

lemma build_plan_from_nil (d itv st : Int) (hitv : 0 ≤ itv)
    (hd : min 60 d ≤ 0) :
    ∀ (sids : List String) (i : Nat), build_plan_from d itv st i sids = [] := by
  intro sids
  induction sids with
  | nil => intro i; rfl
  | cons sid rest ih =>
      intro i
      simp only [build_plan_from]
      have hnn : (0 : Int) ≤ (i : Int) * itv :=
        mul_nonneg (by positivity) hitv
      have hle : min 60 (d - (i : Int) * itv) ≤ 0 := by
        have h1 : d - (i : Int) * itv ≤ d := by linarith
        have h2 : min 60 (d - (i : Int) * itv) ≤ min 60 d :=
          min_le_min (le_refl 60) h1
        linarith
      rw [if_neg (by linarith : ¬ (0 : Int) < min 60 (d - (i : Int) * itv))]
      exact ih (i + 1)

lemma corridor_interval_nonneg (d : Int) (n : Nat) :
    0 ≤ corridor_interval d n :=
  le_trans (by norm_num) (le_max_left 10 (Int.fdiv d (n : Int)))

lemma build_coordination_plan_head (route : List String) (d st : Int) :
    ∀ e, (build_coordination_plan route d st).head? = Option.some e →
      e.delay_from_start = 0 := by
  intro e he
  cases route with
  | nil => simp [build_coordination_plan, build_plan_from] at he
  | cons sid rest =>
      rw [build_coordination_plan] at he
      by_cases hgd : (0 : Int) <
          min 60 (d - ((0 : Nat) : Int) * corridor_interval d (sid :: rest).length)
      · simp only [build_plan_from] at he
        rw [if_pos hgd] at he
        simp only [List.head?_cons, Option.some.injEq] at he
        rw [← he]
        simp
      · have hd0 : min 60 d ≤ 0 := by
          simp only [Nat.cast_zero, zero_mul, sub_zero] at hgd
          omega
        rw [build_plan_from_nil d (corridor_interval d (sid :: rest).length) st
              (corridor_interval_nonneg d (sid :: rest).length) hd0
              (sid :: rest) 0] at he
        simp at he

lemma execute_plan_fst (cr : PlanEntry → OpResult) :
    ∀ plan : List PlanEntry,
      (execute_plan cr plan).1 = plan.filterMap
        (fun p => if (cr p).success = true
                  then Option.some p.signal_id else Option.none) := by
  intro plan
  induction plan with
  | nil => rfl
  | cons p rest ih =>
      simp only [execute_plan, List.filterMap_cons]
      by_cases hs : (cr p).success = true
      · simp [hs, ih]
      · have hs' : (cr p).success = false := by simpa using hs
        simp [hs', ih]

lemma execute_plan_snd (cr : PlanEntry → OpResult) :
    ∀ plan : List PlanEntry,
      (execute_plan cr plan).2 = plan.filterMap
        (fun p => if (cr p).success = true then Option.none
                  else Option.some (p.signal_id, (cr p).error.getD "Unknown error")) := by
  intro plan
  induction plan with
  | nil => rfl
  | cons p rest ih =>
      simp only [execute_plan, List.filterMap_cons]
      by_cases hs : (cr p).success = true
      · simp [hs, ih]
      · have hs' : (cr p).success = false := by simpa using hs
        simp [hs', ih]

/-- Claim C1: for every signal id, duration d > 0 and reason, an emergency
override yields a success result and leaves the signal green and overridden
with `state_start_time = now` and `remaining_time = d ≤ d`; a missing signal
is lazily created first (and its fresh red state snapshotted), and a signal
that was not already overridden has its current phase, remaining time and
start time snapshotted into `normal_timing`. -/
theorem C1_override_success (cfg : Config) (os : Option SignalState)
    (sid : String) (now d : Int) (r : String) (_hd : 0 < d) :
    ((emergency_override cfg os sid now (Option.some d) r).2.success = true)
    ∧ ((emergency_override cfg os sid now (Option.some d) r).1.current_state = "green")
    ∧ ((emergency_override cfg os sid now (Option.some d) r).1.is_emergency_override = true)
    ∧ ((emergency_override cfg os sid now (Option.some d) r).1.state_start_time = now)
    ∧ ((emergency_override cfg os sid now (Option.some d) r).1.remaining_time = d)
    ∧ ((emergency_override cfg os sid now (Option.some d) r).1.remaining_time ≤ d)
    ∧ ((emergency_override cfg os sid now (Option.some d) r).1.override_reason = r)
    ∧ (os = Option.none →
        (emergency_override cfg os sid now (Option.some d) r).1.normal_timing
          = NormalTiming.snapshot
              (PhaseSnapshot.mk "red" cfg.default_red_duration now))
    ∧ (∀ s, os = Option.some s → s.is_emergency_override = false →
        (emergency_override cfg os sid now (Option.some d) r).1.normal_timing
          = NormalTiming.snapshot
              (PhaseSnapshot.mk s.current_state s.remaining_time s.state_start_time)) := by
  cases os with
  | none =>
      refine ⟨rfl, rfl, rfl, rfl, rfl, le_refl d, rfl, fun _ => rfl, ?_⟩
      intro s hs
      simp at hs
  | some s =>
      refine ⟨rfl, rfl, rfl, rfl, rfl, le_refl d, rfl, ?_, ?_⟩
      · intro hn; simp at hn
      · intro s2 hs2 hov
        obtain rfl : s = s2 := Option.some.inj hs2
        simp [emergency_override, _create_signal_if_not_exists, hov]

/-- Witness for C1 at a concrete input (missing signal, d = 5). -/
theorem C1_override_success_witness :
    ((emergency_override cfgD Option.none "s1" 7 (Option.some 5) "amb").2.success = true)
    ∧ ((emergency_override cfgD Option.none "s1" 7 (Option.some 5) "amb").1.current_state = "green")
    ∧ ((emergency_override cfgD Option.none "s1" 7 (Option.some 5) "amb").1.remaining_time = 5)
    ∧ ((emergency_override cfgD Option.none "s1" 7 (Option.some 5) "amb").1.normal_timing
        = NormalTiming.snapshot (PhaseSnapshot.mk "red" 45 7)) := by
  have h := C1_override_success cfgD Option.none "s1" 7 5 "amb" (by norm_num)
  exact ⟨h.1, h.2.1, h.2.2.2.2.1, h.2.2.2.2.2.2.2.1 rfl⟩

/-- Counterexample to claim C2 as stated: `emergency_override` with the
non-positive duration 0 is not rejected — it reports success and mutates the
signal (red → green, override active). -/
theorem C2_counterexample :
    ((emergency_override cfgD (Option.some sRed) "s1" 7 (Option.some 0) "why").2.success = true)
    ∧ ((emergency_override cfgD (Option.some sRed) "s1" 7 (Option.some 0) "why").1.current_state = "green")
    ∧ ((emergency_override cfgD (Option.some sRed) "s1" 7 (Option.some 0) "why").1.is_emergency_override = true)
    ∧ sRed.current_state = "red"
    ∧ sRed.is_emergency_override = false :=
  ⟨rfl, rfl, rfl, rfl, rfl⟩

/-- Claim C2 amended: `emergency_override` performs no duration validation;
a call with duration d ≤ 0 succeeds like any other and installs the
override with `remaining_time = d`. -/
theorem C2_no_duration_validation (cfg : Config) (os : Option SignalState)
    (sid : String) (now d : Int) (r : String) (_hd : d ≤ 0) :
    ((emergency_override cfg os sid now (Option.some d) r).2.success = true)
    ∧ ((emergency_override cfg os sid now (Option.some d) r).1.current_state = "green")
    ∧ ((emergency_override cfg os sid now (Option.some d) r).1.is_emergency_override = true)
    ∧ ((emergency_override cfg os sid now (Option.some d) r).1.remaining_time = d) := by
  cases os with
  | none => exact ⟨rfl, rfl, rfl, rfl⟩
  | some s => exact ⟨rfl, rfl, rfl, rfl⟩

/-- Witness for the amended C2 at duration 0. -/
theorem C2_no_duration_validation_witness :
    ((emergency_override cfgD (Option.some sRed) "s1" 7 (Option.some 0) "why").2.success = true)
    ∧ ((emergency_override cfgD (Option.some sRed) "s1" 7 (Option.some 0) "why").1.remaining_time = 0) := by
  have h := C2_no_duration_validation cfgD (Option.some sRed) "s1" 7 0 "why" (by norm_num)
  exact ⟨h.1, h.2.2.2⟩

/-- Claim C4: `restore_normal_operation` on a missing signal or on a signal
that is not in emergency override returns a failure result carrying an error
and leaves the signal slot exactly as it was. -/
theorem C4_restore_rejected (cfg : Config) (os : Option SignalState)
    (now : Int)
    (h : os = Option.none
        ∨ ∃ s, os = Option.some s ∧ s.is_emergency_override = false) :
    ((restore_normal_operation cfg os now).1 = os)
    ∧ ((restore_normal_operation cfg os now).2.success = false)
    ∧ ((restore_normal_operation cfg os now).2.error ≠ Option.none) := by
  rcases h with rfl | ⟨s, rfl, hov⟩
  · exact ⟨rfl, rfl, by simp [restore_normal_operation]⟩
  · refine ⟨?_, ?_, ?_⟩ <;> simp [restore_normal_operation, hov]

/-- Witness for C4 on a missing signal and on a fresh non-overridden one. -/
theorem C4_restore_rejected_witness :
    ((restore_normal_operation cfgD Option.none 3).1 = Option.none)
    ∧ ((restore_normal_operation cfgD Option.none 3).2.success = false)
    ∧ ((restore_normal_operation cfgD (Option.some sRed) 3).1 = Option.some sRed)
    ∧ ((restore_normal_operation cfgD (Option.some sRed) 3).2.success = false) := by
  have h1 := C4_restore_rejected cfgD Option.none 3 (Or.inl rfl)
  have h2 := C4_restore_rejected cfgD (Option.some sRed) 3
    (Or.inr ⟨sRed, rfl, rfl⟩)
  exact ⟨h1.1, h1.2.1, h2.1, h2.2.1⟩

/-- Counterexample to claim C3 as stated: a signal whose configured
(per-signal) yellow duration is 10 s — installed by `update_timing` while
the override was active — is restored with `remaining_time = 5` (the
controller's default yellow duration), not its configured 10 s. -/
theorem C3_counterexample :
    (stOvCustom = Option.some { stOverridden with
        normal_timing := NormalTiming.timing (SignalTiming.mk 30 10 30 70) })
    ∧ (stOvCustom.map (fun s => s.is_emergency_override) = Option.some true)
    ∧ ((restore_normal_operation cfgD stOvCustom 100).2.success = true)
    ∧ ((restore_normal_operation cfgD stOvCustom 100).1.map
        (fun s => s.remaining_time) = Option.some 5)
    ∧ ((5 : Int) ≠ 10) :=
  ⟨rfl, rfl, rfl, rfl, by norm_num⟩

/-- Claim C3 amended: restoring a reachable signal with an active override
always succeeds and yields phase yellow (never red, never the pre-override
phase), clears the override flag, and sets the planned duration to the
controller's DEFAULT yellow duration (`default_timing.yellow_duration`),
ignoring any per-signal timing profile. -/
theorem C3_restore_yellow (cfg : Config) (sid : String) (ops : List Op)
    (st : SignalState) (now : Int)
    (h1 : runOps cfg sid ops = Option.some st)
    (h2 : st.is_emergency_override = true) :
    ((restore_normal_operation cfg (Option.some st) now).2.success = true)
    ∧ ((restore_normal_operation cfg (Option.some st) now).1.map
        (fun s => s.current_state) = Option.some "yellow")
    ∧ ((restore_normal_operation cfg (Option.some st) now).1.map
        (fun s => s.is_emergency_override) = Option.some false)
    ∧ ((restore_normal_operation cfg (Option.some st) now).1.map
        (fun s => s.remaining_time)
          = Option.some default_timing.yellow_duration) := by
  have hg := goodState_runOps cfg sid ops
  rw [h1] at hg
  have hnt : st.normal_timing ≠ NormalTiming.none := hg.2.1 h2
  cases hntc : st.normal_timing with
  | none => exact absurd hntc hnt
  | timing t =>
      refine ⟨?_, ?_, ?_, ?_⟩ <;> simp [restore_normal_operation, h2, hntc]
  | snapshot snap =>
      refine ⟨?_, ?_, ?_, ?_⟩ <;> simp [restore_normal_operation, h2, hntc]

/-- Witness for the amended C3: create then override reaches
`stOverridden`, whose restoration is yellow with the default 5 s. -/
theorem C3_restore_yellow_witness :
    (runOps cfgD "x" [Op.create 0, Op.override 0 (Option.some 60) "amb"]
      = Option.some stOverridden)
    ∧ ((restore_normal_operation cfgD (Option.some stOverridden) 100).2.success = true)
    ∧ ((restore_normal_operation cfgD (Option.some stOverridden) 100).1.map
        (fun s => s.current_state) = Option.some "yellow")
    ∧ ((restore_normal_operation cfgD (Option.some stOverridden) 100).1.map
        (fun s => s.remaining_time) = Option.some 5) := by
  have h := C3_restore_yellow cfgD "x"
    [Op.create 0, Op.override 0 (Option.some 60) "amb"] stOverridden 100 rfl rfl
  exact ⟨rfl, h.1, h.2.1, h.2.2.2⟩

/-- Counterexample to claim C9 as stated: `update_timing` on a missing
signal with an invalid (empty) configuration reports a validation error,
yet it has already created a signal record (state mutated). -/
theorem C9_counterexample :
    ((update_timing cfgD Option.none "s9" 0 tcEmpty).2.success = false)
    ∧ ((update_timing cfgD Option.none "s9" 0 tcEmpty).2.error ≠ Option.none)
    ∧ ((update_timing cfgD Option.none "s9" 0 tcEmpty).1
        = Option.some (_create_signal_if_not_exists cfgD "s9" 0 Option.none))
    ∧ ((update_timing cfgD Option.none "s9" 0 tcEmpty).1 ≠ Option.none) := by
  refine ⟨rfl, ?_, rfl, ?_⟩ <;> decide

/-- Claim C9 amended: `update_timing` with a configuration that is missing a
required field or whose value is rejected by the validator reports a
validation error and modifies no EXISTING signal record — but it lazily
creates the signal before validating, so a previously missing id gains a
fresh default record even on rejection. -/
theorem C9_update_timing_validation (cfg : Config) (os : Option SignalState)
    (sid : String) (now : Int) (tc : TimingConfig)
    (h : (∃ e, validateField "red_duration" tc.red_duration = Except.error e)
       ∨ (∃ e, validateField "yellow_duration" tc.yellow_duration = Except.error e)
       ∨ (∃ e, validateField "green_duration" tc.green_duration = Except.error e)) :
    ((update_timing cfg os sid now tc).2.success = false)
    ∧ ((update_timing cfg os sid now tc).2.error ≠ Option.none)
    ∧ ((update_timing cfg os sid now tc).1
        = Option.some (_create_signal_if_not_exists cfg sid now os))
    ∧ (∀ s, os = Option.some s →
        (update_timing cfg os sid now tc).1 = Option.some s) := by
  have key : ((update_timing cfg os sid now tc).2.success = false)
      ∧ ((update_timing cfg os sid now tc).2.error ≠ Option.none)
      ∧ ((update_timing cfg os sid now tc).1
          = Option.some (_create_signal_if_not_exists cfg sid now os)) := by
    rcases hr : validateField "red_duration" tc.red_duration with e | r
    · refine ⟨?_, ?_, ?_⟩ <;> simp [update_timing, hr]
    rcases hy : validateField "yellow_duration" tc.yellow_duration with e | y
    · refine ⟨?_, ?_, ?_⟩ <;> simp [update_timing, hr, hy]
    rcases hg2 : validateField "green_duration" tc.green_duration with e | g
    · refine ⟨?_, ?_, ?_⟩ <;> simp [update_timing, hr, hy, hg2]
    · exfalso
      rcases h with ⟨e, he⟩ | ⟨e, he⟩ | ⟨e, he⟩
      · rw [hr] at he; exact Except.noConfusion he
      · rw [hy] at he; exact Except.noConfusion he
      · rw [hg2] at he; exact Except.noConfusion he
  refine ⟨key.1, key.2.1, key.2.2, ?_⟩
  intro s hs
  rw [key.2.2, hs]
  rfl

/-- Witness for the amended C9 on an existing signal and the empty config. -/
theorem C9_update_timing_validation_witness :
    ((update_timing cfgD (Option.some sRed) "s1" 0 tcEmpty).2.success = false)
    ∧ ((update_timing cfgD (Option.some sRed) "s1" 0 tcEmpty).1
        = Option.some sRed) := by
  have h := C9_update_timing_validation cfgD (Option.some sRed) "s1" 0 tcEmpty
    (Or.inl ⟨"Missing required field: red_duration", rfl⟩)
  exact ⟨h.1, h.2.2.2 sRed rfl⟩

/-- Claim C10: every successful restore clears `normal_timing` to None, so
subsequent normal transitions of that signal use the default timing profile;
and an override of a non-overridden signal overwrites whatever
`normal_timing` held (in particular a custom profile installed by
`update_timing`) with the pre-override snapshot — so a custom per-signal
profile never survives an override/restore cycle. -/
theorem C10_timing_profile_lifecycle (cfg : Config) (os : Option SignalState)
    (s s2 : SignalState) (sid : String) (now now2 now3 : Int)
    (d? : Option Int) (r : String) :
    ((restore_normal_operation cfg os now).2.success = true →
      (restore_normal_operation cfg os now).1.map (fun x => x.normal_timing)
        = Option.some NormalTiming.none)
    ∧ (s.normal_timing = NormalTiming.none →
        _transition_to_next_state s now2 = _advance_phase s now2 default_timing)
    ∧ (s2.is_emergency_override = false →
        (emergency_override cfg (Option.some s2) sid now3 d? r).1.normal_timing
          = NormalTiming.snapshot
              (PhaseSnapshot.mk s2.current_state s2.remaining_time
                s2.state_start_time)) := by
  refine ⟨?_, ?_, ?_⟩
  · intro hsucc
    cases os with
    | none => simp [restore_normal_operation] at hsucc
    | some current =>
        by_cases hov : current.is_emergency_override = false
        · simp [restore_normal_operation, hov] at hsucc
        · rw [Bool.not_eq_false] at hov
          cases hnt : current.normal_timing with
          | none => simp [restore_normal_operation, hov, hnt] at hsucc
          | timing t => simp [restore_normal_operation, hov, hnt]
          | snapshot snap => simp [restore_normal_operation, hov, hnt]
  · intro hnt
    simp [_transition_to_next_state, hnt]
  · intro hov
    simp [emergency_override, _create_signal_if_not_exists, hov]

/-- Witness for C10 at concrete inputs. -/
theorem C10_timing_profile_lifecycle_witness :
    ((restore_normal_operation cfgD (Option.some stOverridden) 100).1.map
        (fun x => x.normal_timing) = Option.some NormalTiming.none)
    ∧ (_transition_to_next_state sYellowPlain 5
        = _advance_phase sYellowPlain 5 default_timing)
    ∧ ((emergency_override cfgD (Option.some sRed) "x" 6 (Option.some 60) "amb").1.normal_timing
        = NormalTiming.snapshot (PhaseSnapshot.mk "red" 45 0)) := by
  have h := C10_timing_profile_lifecycle cfgD (Option.some stOverridden)
    sYellowPlain sRed "x" 100 5 6 (Option.some 60) "amb"
  exact ⟨h.1 rfl, h.2.1 rfl, h.2.2 rfl⟩

lemma tick_of_fresh (cfg : Config) (s1 : SignalState) (now : Int)
    (hst : s1.state_start_time = now) (hr : 0 < s1.remaining_time) :
    tick cfg s1 now = s1 := by
  rw [tick, if_neg]
  rw [hst]
  omega

/-- Claim C5: every plan entry of `coordinate_green_corridor` has a positive
green duration equal to `min(60, total_duration - delay)`, a start time of
`start + delay`, and a delay of `index * max(10, total_duration div n)`;
delays are non-decreasing along the plan; a non-dropped first entry has
delay 0; and `coordinate(["a","b"], 60)` yields exactly the two entries
`(a, delay 0, 60 s)` and `(b, delay 30, 30 s)`. -/
theorem C5_corridor_plan (route : List String) (d st : Int)
    (_hroute : route ≠ []) :
    (∀ e ∈ build_coordination_plan route d st,
        0 < e.green_duration
        ∧ e.green_duration = min 60 (d - e.delay_from_start)
        ∧ e.green_start_time = st + e.delay_from_start
        ∧ ∃ i : Nat, route.get? i = Option.some e.signal_id
            ∧ e.delay_from_start = (i : Int) * corridor_interval d route.length)
    ∧ (build_coordination_plan route d st).Pairwise
        (fun a b => a.delay_from_start ≤ b.delay_from_start)
    ∧ (∀ e, (build_coordination_plan route d st).head? = Option.some e →
        e.delay_from_start = 0)
    ∧ (build_coordination_plan ["a", "b"] 60 0
        = [PlanEntry.mk "a" 0 60 0, PlanEntry.mk "b" 30 30 30]) := by
  refine ⟨?_, ?_, build_coordination_plan_head route d st, by decide⟩
  · intro e he
    obtain ⟨h1, h2, h3, j, hj1, hj2⟩ :=
      build_plan_from_mem d (corridor_interval d route.length) st route 0 e he
    exact ⟨h1, h2, h3, j, hj1, by simpa using hj2⟩
  · exact build_plan_from_pairwise d (corridor_interval d route.length) st
      (corridor_interval_nonneg d route.length) route 0

/-- Witness for C5 on the route ["a","b"] with 60 s. -/
theorem C5_corridor_plan_witness :
    ((build_coordination_plan ["a", "b"] 60 0).Pairwise
        (fun a b => a.delay_from_start ≤ b.delay_from_start))
    ∧ (build_coordination_plan ["a", "b"] 60 0
        = [PlanEntry.mk "a" 0 60 0, PlanEntry.mk "b" 30 30 30]) := by
  have h := C5_corridor_plan ["a", "b"] 60 0 (by decide)
  exact ⟨h.2.1, h.2.2.2⟩

lemma corridor_success_aux (cr : PlanEntry → OpResult) :
    ∀ plan : List PlanEntry,
      (0 < (plan.filterMap (fun p => if (cr p).success = true
          then Option.some p.signal_id else Option.none)).length)
        ↔ ∃ e ∈ plan, (cr e).success = true := by
  intro plan
  induction plan with
  | nil => simp
  | cons p rest ih =>
      by_cases hp : (cr p).success = true
      · simp [List.filterMap_cons, hp]
      · have hp' : (cr p).success = false := by simpa using hp
        simp [List.filterMap_cons, hp', ih]

/-- Claim C6: for a non-empty route, the overall result of
`coordinate_green_corridor` is success exactly when at least one plan
entry's override call succeeded; every entry whose call failed appears in
`failed_coordinates` with its per-entry error; and `successful_coordinates`
lists exactly the signals of the entries whose call succeeded (so partial
success still gives an overall success). -/
theorem C6_corridor_result (cr : PlanEntry → OpResult) (route : List String)
    (d st : Int) (hroute : route ≠ []) :
    ((coordinate_green_corridor cr route d st).1.success = true ↔
      ∃ e ∈ build_coordination_plan route d st, (cr e).success = true)
    ∧ (∀ e ∈ build_coordination_plan route d st, (cr e).success = false →
        (e.signal_id, (cr e).error.getD "Unknown error")
          ∈ (coordinate_green_corridor cr route d st).2.2)
    ∧ ((coordinate_green_corridor cr route d st).2.1
        = (build_coordination_plan route d st).filterMap
            (fun p => if (cr p).success = true
                      then Option.some p.signal_id else Option.none)) := by
  have hco : coordinate_green_corridor cr route d st
      = ({ success := decide
            (0 < (execute_plan cr (build_coordination_plan route d st)).1.length) },
         execute_plan cr (build_coordination_plan route d st)) := by
    simp only [coordinate_green_corridor]
    rw [if_neg hroute]
  refine ⟨?_, ?_, ?_⟩
  · rw [hco]
    simp only [decide_eq_true_eq]
    rw [execute_plan_fst]
    exact corridor_success_aux cr (build_coordination_plan route d st)
  · intro e he hfail
    rw [hco]
    show (e.signal_id, (cr e).error.getD "Unknown error")
      ∈ (execute_plan cr (build_coordination_plan route d st)).2
    rw [execute_plan_snd]
    rw [List.mem_filterMap]
    exact ⟨e, he, by simp [hfail]⟩
  · rw [hco]
    exact execute_plan_fst cr (build_coordination_plan route d st)

/-- Witness for C6: partial success (a succeeds, b fails) still reports
overall success, with b listed among the failures. -/
theorem C6_corridor_result_witness :
    ((coordinate_green_corridor crPartial ["a", "b"] 60 0).1.success = true)
    ∧ (("b", "boom") ∈ (coordinate_green_corridor crPartial ["a", "b"] 60 0).2.2) := by
  have h := C6_corridor_result crPartial ["a", "b"] 60 0 (by decide)
  constructor
  · exact h.1.mpr ⟨PlanEntry.mk "a" 0 60 0, by decide, rfl⟩
  · exact h.2.1 (PlanEntry.mk "b" 30 30 30) (by decide) rfl

/-- Claim C7: one monitor tick is idempotent at a fixed time `now`: when all
effective phase durations are positive, ticking an already-ticked signal
again at the same `now` changes nothing, so the phase advances at most once
per duration window. -/
theorem C7_tick_idempotent (cfg : Config) (s : SignalState) (now : Int)
    (h1 : 0 < cfg.default_red_duration)
    (h2 : ∀ t, s.normal_timing = NormalTiming.timing t →
        0 < t.red_duration ∧ 0 < t.yellow_duration ∧ 0 < t.green_duration) :
    tick cfg (tick cfg s now) now = tick cfg s now := by
  by_cases hc : now - s.state_start_time ≥ s.remaining_time
  · by_cases hov : s.is_emergency_override = true
    · have ht : tick cfg s now
          = ((restore_normal_operation cfg (Option.some s) now).1).getD s := by
        rw [tick, if_pos hc, if_pos hov]
      cases hnt : s.normal_timing with
      | none =>
          have hrr : (restore_normal_operation cfg (Option.some s) now).1
              = Option.some
                  { signal_id := s.signal_id
                    current_state := "red"
                    state_start_time := now
                    remaining_time := cfg.default_red_duration
                    is_emergency_override := false } := by
            simp [restore_normal_operation, hov, hnt]
          rw [ht, hrr]
          exact tick_of_fresh cfg _ now rfl h1
      | timing t =>
          have hrr : (restore_normal_operation cfg (Option.some s) now).1
              = Option.some
                  { signal_id := s.signal_id
                    current_state := "yellow"
                    state_start_time := now
                    remaining_time := default_timing.yellow_duration
                    is_emergency_override := false
                    normal_timing := NormalTiming.none } := by
            simp [restore_normal_operation, hov, hnt]
          rw [ht, hrr]
          exact tick_of_fresh cfg _ now rfl (show (0:Int) < 5 by decide)
      | snapshot snap =>
          have hrr : (restore_normal_operation cfg (Option.some s) now).1
              = Option.some
                  { signal_id := s.signal_id
                    current_state := "yellow"
                    state_start_time := now
                    remaining_time := default_timing.yellow_duration
                    is_emergency_override := false
                    normal_timing := NormalTiming.none } := by
            simp [restore_normal_operation, hov, hnt]
          rw [ht, hrr]
          exact tick_of_fresh cfg _ now rfl (show (0:Int) < 5 by decide)
    · have ht : tick cfg s now = _transition_to_next_state s now := by
        rw [tick, if_pos hc, if_neg hov]
      cases hnt : s.normal_timing with
      | snapshot snap =>
          have htr : _transition_to_next_state s now = s := by
            simp [_transition_to_next_state, hnt]
          rw [ht, htr, ht, htr]
      | timing t =>
          have htr : _transition_to_next_state s now = _advance_phase s now t := by
            simp [_transition_to_next_state, hnt]
          obtain ⟨hr, hy, hg⟩ := h2 t hnt
          rw [ht, htr]
          refine tick_of_fresh cfg _ now rfl ?_
          show (0 : Int) <
            (if s.current_state = "red" then ("green", t.green_duration)
             else if s.current_state = "green" then ("yellow", t.yellow_duration)
             else ("red", t.red_duration)).2
          split_ifs <;> assumption
      | none =>
          have htr : _transition_to_next_state s now
              = _advance_phase s now default_timing := by
            simp [_transition_to_next_state, hnt]
          rw [ht, htr]
          refine tick_of_fresh cfg _ now rfl ?_
          show (0 : Int) <
            (if s.current_state = "red" then ("green", default_timing.green_duration)
             else if s.current_state = "green" then ("yellow", default_timing.yellow_duration)
             else ("red", default_timing.red_duration)).2
          split_ifs <;> decide
  · have ht : tick cfg s now = s := by rw [tick, if_neg hc]
    rw [ht]
    exact ht

/-- Witness for C7: a green signal at the end of its window advances to
yellow once; a second tick at the same time changes nothing. -/
theorem C7_tick_idempotent_witness :
    (tick cfgD (tick cfgD sGreenDue 30) 30 = tick cfgD sGreenDue 30)
    ∧ ((tick cfgD sGreenDue 30).current_state = "yellow") := by
  have h := C7_tick_idempotent cfgD sGreenDue 30 (by decide)
    (fun t ht => NormalTiming.noConfusion ht)
  exact ⟨h, rfl⟩

/-- Claim C8: every reachable signal state has a phase among red, yellow and
green; the override flag is a single boolean (so exactly one of normal and
override mode holds); and in normal mode a monitor tick either leaves the
state unchanged or advances the phase along red→green→yellow→red. -/
theorem C8_state_invariant (cfg : Config) (sid : String) (ops : List Op)
    (st : SignalState) (now : Int)
    (h : runOps cfg sid ops = Option.some st) :
    (st.current_state = "red" ∨ st.current_state = "yellow"
      ∨ st.current_state = "green")
    ∧ (st.is_emergency_override = true ∨ st.is_emergency_override = false)
    ∧ (st.is_emergency_override = false →
        tick cfg st now = st
        ∨ (tick cfg st now).current_state = nextPhase st.current_state) := by
  have hg := goodState_runOps cfg sid ops
  rw [h] at hg
  refine ⟨hg.1, ?_, ?_⟩
  · cases hb : st.is_emergency_override
    · exact Or.inr rfl
    · exact Or.inl rfl
  · intro hov
    by_cases hc : now - st.state_start_time ≥ st.remaining_time
    · right
      have hovn : ¬ (st.is_emergency_override = true) := by simp [hov]
      have ht : tick cfg st now = _transition_to_next_state st now := by
        rw [tick, if_pos hc, if_neg hovn]
      rw [ht]
      cases hnt : st.normal_timing with
      | snapshot snap => exact absurd hnt (hg.2.2 hov snap)
      | timing t =>
          have htr : _transition_to_next_state st now = _advance_phase st now t := by
            simp [_transition_to_next_state, hnt]
          rw [htr]
          show (if st.current_state = "red" then ("green", t.green_duration)
                else if st.current_state = "green" then ("yellow", t.yellow_duration)
                else ("red", t.red_duration)).1 = nextPhase st.current_state
          rw [nextPhase]
          split_ifs <;> rfl
      | none =>
          have htr : _transition_to_next_state st now
              = _advance_phase st now default_timing := by
            simp [_transition_to_next_state, hnt]
          rw [htr]
          show (if st.current_state = "red" then ("green", default_timing.green_duration)
                else if st.current_state = "green" then ("yellow", default_timing.yellow_duration)
                else ("red", default_timing.red_duration)).1 = nextPhase st.current_state
          rw [nextPhase]
          split_ifs <;> rfl
    · left
      rw [tick, if_neg hc]

/-- Witness for C8 on the freshly created signal. -/
theorem C8_state_invariant_witness :
    (sRed.current_state = "red" ∨ sRed.current_state = "yellow"
      ∨ sRed.current_state = "green")
    ∧ (tick cfgD sRed 10 = sRed
        ∨ (tick cfgD sRed 10).current_state = nextPhase sRed.current_state) := by
  have h := C8_state_invariant cfgD "s1" [Op.create 0] sRed 10 rfl
  exact ⟨h.1, h.2.2 rfl⟩

end TrafficSignals
